import Mathlib

/-!
Shallow embedding of the cointainr price/rate caching engine:
cache validity evaluation (app/services/cache_management.py),
the circuit breaker (app/utils/graceful_degradation.py),
the retry controller (app/services/api_error_handler.py),
the conversion service (app/services/conversion_service.py) and
the price service (app/services/price_service.py).

Modelling conventions:
* timestamps are rational numbers of seconds (UTC epoch); `now` is passed
  explicitly wherever the Python code calls `datetime.now` / `datetime.utcnow`;
* floats (prices, rates, amounts, delays) are rationals;
* the database is a list of cache rows; SQL "order by fetched_at desc limit 1"
  becomes a fold selecting a row with maximal `fetched_at`;
* upstream HTTP calls are oracles passed as parameters (`Option` of the parsed
  payload: `none` models any fetch failure - missing API key, network error,
  non-200 status or unusable body - which the Python code collapses into one
  raised/critical path);
* hit/miss statistics counters and logging are side channels no modelled claim
  observes and are omitted.
-/

namespace Cointainr

/-- Python str.upper() as used on 3-letter ASCII currency codes, written over
the character list so that it evaluates by definitional reduction (the
built-in String.toUpper is defined by well-founded recursion on byte
positions, which the kernel does not reduce). On ASCII input the two agree. -/
def str_upper (s : String) : String :=
  String.mk (s.data.map fun c =>
    if 97 ≤ c.toNat && c.toNat ≤ 122 then Char.ofNat (c.toNat - 32) else c)

/-! ### Cache validity evaluator (app/services/cache_management.py) -/

/-- CacheManagementService._is_cache_valid: age in minutes is
(now - fetched_at).total_seconds() / 60, valid iff age_minutes <= max_age_minutes. -/
def isCacheValidAge (now fetched_at : ℚ) (max_age_minutes : ℚ) : Bool :=
  decide ((now - fetched_at) / 60 ≤ max_age_minutes)

/-- Python int() truncates toward zero. -/
def intTrunc (q : ℚ) : ℤ :=
  if 0 ≤ q then ⌊q⌋ else ⌈q⌉

/-- CacheManagementService.get_cache_age_minutes for an entry with a
timestamp: int((now - fetched_at).total_seconds() / 60). -/
def get_cache_age_minutes (now fetched_at : ℚ) : ℤ :=
  intTrunc ((now - fetched_at) / 60)

/-- Row of the price_cache table (app/models/price_cache.py); fetched_at is a
non-nullable column. -/
structure PriceCache where
  symbol : String
  asset_type : String
  price : ℚ
  currency : String
  fetched_at : ℚ
  source : String
deriving Repr, DecidableEq

/-- Row of the conversion_cache table (app/models/conversion_cache.py). -/
structure ConversionCache where
  from_currency : String
  to_currency : String
  rate : ℚ
  fetched_at : ℚ
  source : String
deriving Repr, DecidableEq

/-- CacheManagementService.is_price_cache_valid: false on force_refresh,
false on a missing entry, otherwise the age test against PRICE_CACHE_MINUTES
(here the parameter price_cache_minutes). -/
def is_price_cache_valid (now price_cache_minutes : ℚ)
    (cached_entry : Option PriceCache) (force_refresh : Bool) : Bool :=
  if force_refresh then false
  else
    match cached_entry with
    | none => false
    | some e => isCacheValidAge now e.fetched_at price_cache_minutes

/-- CacheManagementService.is_conversion_cache_valid: false on force_refresh,
false on a missing entry, otherwise the age test against
CONVERSION_CACHE_HOURS * 60 minutes. -/
def is_conversion_cache_valid (now conversion_cache_hours : ℚ)
    (cached_entry : Option ConversionCache) (force_refresh : Bool) : Bool :=
  if force_refresh then false
  else
    match cached_entry with
    | none => false
    | some e => isCacheValidAge now e.fetched_at (conversion_cache_hours * 60)

/-- CacheManagementService.get_price_cache_expiration:
fetched_at + PRICE_CACHE_MINUTES. -/
def get_price_cache_expiration (price_cache_minutes : ℚ) (e : PriceCache) : ℚ :=
  e.fetched_at + price_cache_minutes * 60

/-- CacheManagementService.get_conversion_cache_expiration:
fetched_at + CONVERSION_CACHE_HOURS. -/
def get_conversion_cache_expiration (conversion_cache_hours : ℚ) (e : ConversionCache) : ℚ :=
  e.fetched_at + conversion_cache_hours * 3600

/-! ### Circuit breaker (app/utils/graceful_degradation.py) -/

inductive BreakerState where
  | closed
  | opened
  | half_open
deriving Repr, DecidableEq

/-- CircuitBreaker instance state: configuration plus the mutable fields
failures, state, last_failure_time, last_success_time. -/
structure CircuitBreaker where
  name : String
  failure_threshold : ℕ
  reset_timeout : ℚ
  half_open_timeout : ℚ
  failures : ℕ
  state : BreakerState
  last_failure_time : Option ℚ
  last_success_time : Option ℚ
deriving Repr, DecidableEq

/-- CircuitBreaker.__init__ with explicit configuration (defaults are
failure_threshold 5, reset_timeout 60, half_open_timeout 30). -/
def CircuitBreaker.init (name : String) (failure_threshold : ℕ)
    (reset_timeout half_open_timeout : ℚ) : CircuitBreaker :=
  { name := name
    failure_threshold := failure_threshold
    reset_timeout := reset_timeout
    half_open_timeout := half_open_timeout
    failures := 0
    state := .closed
    last_failure_time := none
    last_success_time := none }

/-- CircuitBreaker.record_success. -/
def CircuitBreaker.record_success (cb : CircuitBreaker) (now : ℚ) : CircuitBreaker :=
  { cb with failures := 0, state := .closed, last_success_time := some now }

/-- CircuitBreaker.record_failure: increment failures, stamp
last_failure_time, open the circuit once failures >= failure_threshold. -/
def CircuitBreaker.record_failure (cb : CircuitBreaker) (now : ℚ) : CircuitBreaker :=
  let cb1 := { cb with failures := cb.failures + 1, last_failure_time := some now }
  if cb1.failure_threshold ≤ cb1.failures then { cb1 with state := .opened } else cb1

/-- CircuitBreaker.allow_request: returns the admission decision together with
the (possibly updated) breaker, since the open-state branch mutates the state
to half-open when the reset timeout has elapsed. -/
def CircuitBreaker.allow_request (cb : CircuitBreaker) (now : ℚ) :
    Bool × CircuitBreaker :=
  match cb.state with
  | .closed => (true, cb)
  | .opened =>
    match cb.last_failure_time with
    | none => (true, cb)
    | some t =>
      if cb.reset_timeout ≤ now - t then (true, { cb with state := .half_open })
      else (false, cb)
  | .half_open =>
    match cb.last_failure_time with
    | none => (true, cb)
    | some t =>
      if cb.half_open_timeout ≤ now - t then (true, cb)
      else (false, cb)

/-! ### Retry controller (app/services/api_error_handler.py) -/

def MAX_RETRIES : ℕ := 3
def BASE_DELAY : ℚ := 1
def MAX_DELAY : ℚ := 10
def JITTER : ℚ := 1 / 10

/-- Pre-jitter part of APIErrorContext.get_retry_delay:
min(BASE_DELAY * 2 ** retry_count, MAX_DELAY). -/
def get_retry_delay_base (retry_count : ℕ) : ℚ :=
  min (BASE_DELAY * 2 ^ retry_count) MAX_DELAY

/-- APIErrorContext.get_retry_delay with the sampled jitter made explicit:
random.uniform(-delay * JITTER, delay * JITTER) is modelled by the parameter
jitter, and the result is floored at 0.1 seconds via max(0.1, delay). -/
def get_retry_delay (retry_count : ℕ) (jitter : ℚ) : ℚ :=
  max (1 / 10) (get_retry_delay_base retry_count + jitter)

/-- Upstream attempt oracle: attempt k (0-based) of the wrapped coroutine
either produces a value or raises, modelled as Except. -/
def AttemptOracle (T : Type) : Type := ℕ → Except String T

/-- Core loop of retry_with_exponential_backoff: call the function; on
success return; on an exception, retry while retry_count < max_retries,
otherwise surface the final error (handle_api_error with no fallback raises).
The second component counts how many upstream attempts were made. -/
def retry_with_exponential_backoff {T : Type} (f : AttemptOracle T)
    (max_retries : ℕ) (retry_count : ℕ) : Except String T × ℕ :=
  match f retry_count with
  | .ok v => (.ok v, retry_count + 1)
  | .error e =>
    if h : retry_count < max_retries then
      retry_with_exponential_backoff f max_retries (retry_count + 1)
    else
      (.error e, retry_count + 1)
termination_by max_retries + 1 - retry_count

inductive CallError where
  | circuit_open (name : String)
  | upstream (msg : String)
deriving Repr, DecidableEq

/-- Result of one guarded upstream call: the value or error, the breaker
state afterwards, and the number of upstream attempts actually performed. -/
structure GuardedCallResult (T : Type) where
  result : Except CallError T
  breaker : CircuitBreaker
  upstream_attempts : ℕ

/-- Decorator composition used by enhanced_price_service.py, where
with_circuit_breaker(name) is applied outside with_api_error_handling(...):
the breaker admission check runs once, before the retry loop; when it rejects,
the wrapper raises the circuit-open exception immediately and the retry loop
is never entered; when it admits, the retry loop runs and the breaker records
one success or one failure for the overall outcome. -/
def guardedRetryCall {T : Type} (cb : CircuitBreaker) (now : ℚ)
    (f : AttemptOracle T) (max_retries : ℕ) : GuardedCallResult T :=
  let ar := cb.allow_request now
  if ar.1 then
    match retry_with_exponential_backoff f max_retries 0 with
    | (.ok v, n) => ⟨.ok v, ar.2.record_success now, n⟩
    | (.error e, n) => ⟨.error (.upstream e), ar.2.record_failure now, n⟩
  else
    ⟨.error (.circuit_open cb.name), ar.2, 0⟩

/-! ### Conversion cache CRUD (app/crud/crud_conversion_cache.py) -/

/-- Latest row by fetched_at (order_by fetched_at desc, limit 1); on a tie
either row may win, the fold keeps the earlier list element. -/
def latestConversion (l : List ConversionCache) : Option ConversionCache :=
  l.foldl
    (fun acc e =>
      match acc with
      | none => some e
      | some a => if a.fetched_at < e.fetched_at then some e else some a)
    none

/-- crud_conversion_cache.get_cached_conversion_rate: none for a same-currency
pair, otherwise the newest row for the uppercased ordered pair whose
fetched_at is at least now - max_age_hours (the optimized batch path of
optimized_cache_queries.get_conversion_cache_batch applies the same pair,
cutoff and latest-row selection). -/
def get_cached_conversion_rate (db : List ConversionCache) (now : ℚ)
    (from_currency to_currency : String) (max_age_hours : ℚ) :
    Option ConversionCache :=
  if str_upper from_currency = str_upper to_currency then none
  else
    let cutoff := now - max_age_hours * 3600
    latestConversion (db.filter fun e =>
      e.from_currency == str_upper from_currency &&
      e.to_currency == str_upper to_currency &&
      decide (cutoff ≤ e.fetched_at))

/-- crud_conversion_cache.update_or_create_conversion_cache: always appends a
new row stamped with the current time. -/
def update_or_create_conversion_cache (db : List ConversionCache) (now : ℚ)
    (from_currency to_currency : String) (rate : ℚ) (source : String) :
    List ConversionCache × ConversionCache :=
  let row : ConversionCache :=
    { from_currency := str_upper from_currency
      to_currency := str_upper to_currency
      rate := rate
      fetched_at := now
      source := source }
  (db ++ [row], row)

/-! ### Conversion service (app/services/conversion_service.py) -/

/-- Elements of the cache_status dict of a rate result; fields that only
appear on some code paths are Options. -/
structure ConvCacheStatus where
  is_valid : Bool
  age_minutes : ℤ
  expires_at : Option ℚ
  ttl_hours : Option ℚ
  is_inverse_pair : Option Bool
  using_expired_cache : Option Bool
deriving Repr, DecidableEq

/-- Result dict of ConversionService.get_conversion_rate (keys "from", "to",
"rate", "cached", "fetched_at", "source", "cache_status"). -/
structure RateResult where
  from_c : String
  to_c : String
  rate : ℚ
  cached : Bool
  fetched_at : ℚ
  source : String
  cache_status : ConvCacheStatus
deriving Repr, DecidableEq

/-- Outcome of a get_conversion_rate call: the returned dict or the raised
error, the database afterwards, and how many cache-store reads and writes
were performed. -/
structure ConvOutcome where
  result : Except String RateResult
  db : List ConversionCache
  store_reads : ℕ
  store_writes : ℕ
deriving Repr

/-- ConversionService._get_cached_rate: any cached entry regardless of age
(max_age_hours = 999999). -/
def ConversionService.get_cached_rate (db : List ConversionCache) (now : ℚ)
    (from_currency to_currency : String) : Option ConversionCache :=
  get_cached_conversion_rate db now from_currency to_currency 999999

/-- ConversionService.get_conversion_rate. The api parameter is the upstream
exchangerate-api oracle: some rate models a successful fetch of
conversion_rate, none models every failure branch (missing key, non-200,
non-success payload, missing rate, network error), all of which raise. -/
def ConversionService.get_conversion_rate (db : List ConversionCache)
    (from_currency to_currency : String) (force_refresh allow_expired : Bool)
    (now conversion_cache_hours : ℚ) (api : Option ℚ) : ConvOutcome :=
  let fc := str_upper from_currency
  let tc := str_upper to_currency
  if fc = tc then
    { result := .ok
        { from_c := fc
          to_c := tc
          rate := 1
          cached := false
          fetched_at := now
          source := "same_currency"
          cache_status :=
            { is_valid := true
              age_minutes := 0
              expires_at := none
              ttl_hours := none
              is_inverse_pair := none
              using_expired_cache := none } }
      db := db
      store_reads := 0
      store_writes := 0 }
  else
    let lookup :=
      if force_refresh then (none, false, 0)
      else
        match ConversionService.get_cached_rate db now fc tc with
        | some c => (some c, false, 1)
        | none =>
          match ConversionService.get_cached_rate db now tc fc with
          | some c => (some c, true, 2)
          | none => (none, false, 2)
    let reads := lookup.2.2
    let is_inverse := lookup.2.1
    let served :=
      match lookup.1 with
      | none => none
      | some c =>
        if is_conversion_cache_valid now conversion_cache_hours (some c) false
            || allow_expired then some c
        else none
    match served with
    | some c =>
      let is_valid :=
        is_conversion_cache_valid now conversion_cache_hours (some c) false
      { result := .ok
          { from_c := fc
            to_c := tc
            rate := if is_inverse then 1 / c.rate else c.rate
            cached := true
            fetched_at := c.fetched_at
            source := c.source
            cache_status :=
              { is_valid := is_valid
                age_minutes := get_cache_age_minutes now c.fetched_at
                expires_at :=
                  some (get_conversion_cache_expiration conversion_cache_hours c)
                ttl_hours := some conversion_cache_hours
                is_inverse_pair := some is_inverse
                using_expired_cache := some (allow_expired && !is_valid) } }
        db := db
        store_reads := reads
        store_writes := 0 }
    | none =>
      match api with
      | none =>
        { result := .error "Error fetching conversion rate"
          db := db
          store_reads := reads
          store_writes := 0 }
      | some rate =>
        let put := update_or_create_conversion_cache db now fc tc rate
          "exchangerate-api"
        { result := .ok
            { from_c := fc
              to_c := tc
              rate := rate
              cached := false
              fetched_at := now
              source := "exchangerate-api"
              cache_status :=
                { is_valid := true
                  age_minutes := 0
                  expires_at :=
                    some (get_conversion_cache_expiration conversion_cache_hours
                      put.2)
                  ttl_hours := some conversion_cache_hours
                  is_inverse_pair := some false
                  using_expired_cache := none } }
          db := put.1
          store_reads := reads
          store_writes := 1 }

/-- Result dict of ConversionService.convert_amount. -/
structure ConvertResult where
  from_c : String
  to_c : String
  amount : ℚ
  converted : ℚ
  rate : ℚ
  cached : Bool
  fetched_at : ℚ
  source : String
  cache_status : ConvCacheStatus
deriving Repr, DecidableEq

/-- Outcome of a convert_amount call. -/
structure ConvertOutcome where
  result : Except String ConvertResult
  db : List ConversionCache
  store_reads : ℕ
  store_writes : ℕ
deriving Repr

/-- ConversionService.convert_amount: delegates to get_conversion_rate
(errors propagate), multiplies the amount by the returned rate and passes the
rate-result fields through. -/
def ConversionService.convert_amount (db : List ConversionCache)
    (from_currency to_currency : String) (amount : ℚ)
    (force_refresh allow_expired : Bool) (now conversion_cache_hours : ℚ)
    (api : Option ℚ) : ConvertOutcome :=
  let o := ConversionService.get_conversion_rate db from_currency to_currency
    force_refresh allow_expired now conversion_cache_hours api
  match o.result with
  | .error e =>
    { result := .error e
      db := o.db
      store_reads := o.store_reads
      store_writes := o.store_writes }
  | .ok rd =>
    { result := .ok
        { from_c := rd.from_c
          to_c := rd.to_c
          amount := amount
          converted := amount * rd.rate
          rate := rd.rate
          cached := rd.cached
          fetched_at := rd.fetched_at
          source := rd.source
          cache_status := rd.cache_status }
      db := o.db
      store_reads := o.store_reads
      store_writes := o.store_writes }

/-! ### Price cache CRUD (app/crud/crud_price_cache.py) -/

/-- Latest row by fetched_at (order_by fetched_at desc, limit 1). -/
def latestPrice (l : List PriceCache) : Option PriceCache :=
  l.foldl
    (fun acc e =>
      match acc with
      | none => some e
      | some a => if a.fetched_at < e.fetched_at then some e else some a)
    none

/-- crud_price_cache.get_cache_by_symbol: most recent row for the
(symbol, asset_type) key regardless of age. -/
def get_cache_by_symbol (db : List PriceCache) (symbol asset_type : String) :
    Option PriceCache :=
  latestPrice (db.filter fun e =>
    e.symbol == symbol && e.asset_type == asset_type)

/-! ### Price service (app/services/price_service.py) -/

/-- Elements of the cache_status dict of a price result. -/
structure PriceCacheStatus where
  is_valid : Bool
  age_minutes : ℤ
  expires_at : ℚ
  ttl_minutes : ℚ
  using_expired_cache : Bool
deriving Repr, DecidableEq

/-- Result dict of PriceService.get_stock_price. The three code paths return
dicts with different key sets: the cache-hit and fresh-fetch paths carry a
cache_status block; the stale-fallback path instead carries the top-level
keys cache_expired, cache_age_minutes and api_error. Absent keys are none. -/
structure PriceResult where
  symbol : String
  price : ℚ
  currency : String
  cached : Bool
  fetched_at : ℚ
  source : String
  cache_valid_until : ℚ
  cache_status : Option PriceCacheStatus
  cache_expired : Option Bool
  cache_age_minutes : Option ℤ
  api_error : Option Bool
deriving Repr, DecidableEq

/-- Outcome of a get_stock_price call: returned dict or raised error, plus
the database afterwards. -/
structure PriceOutcome where
  result : Except String PriceResult
  db : List PriceCache
deriving Repr

/-- Outcome of the upstream fetch section of get_stock_price (the
Finnhub/Yahoo provider chain, including the ISIN symbol-resolution branch):
the first provider to yield a usable numeric price determines symbol, price,
currency and source; none models the all-providers-failed case, in which the
local variable price stays None. -/
structure FetchedQuote where
  symbol : String
  price : ℚ
  currency : String
  source : String
deriving Repr, DecidableEq

/-- Early cache-serve decision of PriceService.get_stock_price: when not
forcing a refresh, the latest cached row is returned immediately if it is
valid or allow_expired is set. -/
def PriceService.stock_cache_hit (db : List PriceCache) (identifier : String)
    (force_refresh allow_expired : Bool) (now price_cache_minutes : ℚ) :
    Option PriceCache :=
  if force_refresh then none
  else
    match get_cache_by_symbol db identifier "stock" with
    | none => none
    | some c =>
      if is_price_cache_valid now price_cache_minutes (some c) false
          || allow_expired then some c
      else none

/-- PriceService.get_stock_price: serve a usable cached row; otherwise fetch
upstream (oracle upstream); on success persist and return fresh; on total
upstream failure fall back to any cached row regardless of age, and raise
only when none exists. -/
def PriceService.get_stock_price (db : List PriceCache) (identifier : String)
    (force_refresh allow_expired : Bool) (now price_cache_minutes : ℚ)
    (upstream : Option FetchedQuote) : PriceOutcome :=
  match PriceService.stock_cache_hit db identifier force_refresh allow_expired
      now price_cache_minutes with
  | some c =>
    let is_valid := is_price_cache_valid now price_cache_minutes (some c) false
    { result := .ok
        { symbol := c.symbol
          price := c.price
          currency := c.currency
          cached := true
          fetched_at := c.fetched_at
          source := c.source
          cache_valid_until := get_price_cache_expiration price_cache_minutes c
          cache_status := some
            { is_valid := is_valid
              age_minutes := get_cache_age_minutes now c.fetched_at
              expires_at := get_price_cache_expiration price_cache_minutes c
              ttl_minutes := price_cache_minutes
              using_expired_cache := allow_expired && !is_valid }
          cache_expired := none
          cache_age_minutes := none
          api_error := none }
      db := db }
  | none =>
    match upstream with
    | some q =>
      let row : PriceCache :=
        { symbol := q.symbol
          asset_type := "stock"
          price := q.price
          currency := q.currency
          fetched_at := now
          source := q.source }
      { result := .ok
          { symbol := q.symbol
            price := q.price
            currency := q.currency
            cached := false
            fetched_at := now
            source := q.source
            cache_valid_until := now + price_cache_minutes * 60
            cache_status := some
              { is_valid := true
                age_minutes := 0
                expires_at := now + price_cache_minutes * 60
                ttl_minutes := price_cache_minutes
                using_expired_cache := false }
            cache_expired := none
            cache_age_minutes := none
            api_error := none }
        db := db ++ [row] }
    | none =>
      match get_cache_by_symbol db identifier "stock" with
      | some c =>
        { result := .ok
            { symbol := c.symbol
              price := c.price
              currency := c.currency
              cached := true
              fetched_at := c.fetched_at
              source := c.source
              cache_valid_until :=
                get_price_cache_expiration price_cache_minutes c
              cache_status := none
              cache_expired := some
                (!(is_price_cache_valid now price_cache_minutes (some c) false))
              cache_age_minutes := some (get_cache_age_minutes now c.fetched_at)
              api_error := some true }
          db := db }
      | none =>
        { result := .error
            ("Could not fetch price for " ++ identifier ++
              " and no cached data available")
          db := db }

/-- Fold applying record_failure once per listed failure time. -/
def failN (cb : CircuitBreaker) : List ℚ → CircuitBreaker
  | [] => cb
  | t :: ts => failN (cb.record_failure t) ts

/-- Reachability of a breaker state from a start state by any interleaving of
record_success, record_failure and allow_request. -/
inductive CircuitBreaker.Reachable (cb0 : CircuitBreaker) : CircuitBreaker → Prop where
  | refl : CircuitBreaker.Reachable cb0 cb0
  | success (cb : CircuitBreaker) (now : ℚ) :
      CircuitBreaker.Reachable cb0 cb →
      CircuitBreaker.Reachable cb0 (cb.record_success now)
  | failure (cb : CircuitBreaker) (now : ℚ) :
      CircuitBreaker.Reachable cb0 cb →
      CircuitBreaker.Reachable cb0 (cb.record_failure now)
  | allow (cb : CircuitBreaker) (now : ℚ) :
      CircuitBreaker.Reachable cb0 cb →
      CircuitBreaker.Reachable cb0 ((cb.allow_request now).2)

/-! ### Theorems -/

/-- C6: the cache validity check accepts an observation whose age in minutes
is exactly the TTL and rejects one whose age is strictly greater: the
comparison in CacheManagementService._is_cache_valid is <=, not <. -/
theorem C6_ttl_boundary (now fetched_at ttl : ℚ) :
    ((now - fetched_at) / 60 = ttl → isCacheValidAge now fetched_at ttl = true) ∧
    (ttl < (now - fetched_at) / 60 → isCacheValidAge now fetched_at ttl = false) := by
  constructor
  · intro h
    simp [isCacheValidAge, h]
  · intro h
    simp [isCacheValidAge, not_le]
    exact h

/-- Witness for C6 at a concrete input: TTL 2 minutes, age exactly 120
seconds is valid, age 121 seconds is not. -/
theorem C6_ttl_boundary_witness :
    isCacheValidAge 120 0 2 = true ∧ isCacheValidAge 121 0 2 = false :=
  ⟨(C6_ttl_boundary 120 0 2).1 (by norm_num),
   (C6_ttl_boundary 121 0 2).2 (by norm_num)⟩

/-- C7: with force_refresh set, both validity checks report false for every
entry (present or absent, of any age, including age 0) and every TTL. -/
theorem C7_force_refresh_override (now price_ttl conv_ttl : ℚ)
    (pe : Option PriceCache) (ce : Option ConversionCache) :
    is_price_cache_valid now price_ttl pe true = false ∧
    is_conversion_cache_valid now conv_ttl ce true = false :=
  ⟨rfl, rfl⟩

/-- C8: the pre-jitter retry delay is min(BASE_DELAY * 2 ^ n, MAX_DELAY) with
base 1 second and cap 10 seconds, is monotone non-decreasing in the attempt
number and never exceeds MAX_DELAY; with any jitter bounded by 10 percent of
the pre-jitter delay, the returned delay is the jittered delay floored at 0.1
seconds, hence at least 0.1 seconds. -/
theorem C8_backoff_delay (n m : ℕ) (j : ℚ) :
    get_retry_delay_base n = min (BASE_DELAY * 2 ^ n) MAX_DELAY ∧
    (n ≤ m → get_retry_delay_base n ≤ get_retry_delay_base m) ∧
    get_retry_delay_base n ≤ MAX_DELAY ∧
    (|j| ≤ get_retry_delay_base n * JITTER →
      get_retry_delay n j = max (1 / 10) (get_retry_delay_base n + j) ∧
      1 / 10 ≤ get_retry_delay n j) := by
  refine ⟨rfl, ?_, ?_, ?_⟩
  · intro h
    unfold get_retry_delay_base BASE_DELAY MAX_DELAY
    have h2 : (2 : ℚ) ^ n ≤ 2 ^ m := by
      apply pow_le_pow_right₀ (by norm_num) h
    simp only [one_mul]
    exact min_le_min h2 le_rfl
  · exact min_le_right _ _
  · intro _
    exact ⟨rfl, le_max_left _ _⟩

/-- Witness for C8 at concrete attempts 1 and 2 with zero jitter. -/
theorem C8_backoff_delay_witness :
    get_retry_delay_base 1 = min (BASE_DELAY * 2 ^ 1) MAX_DELAY ∧
    get_retry_delay_base 1 ≤ get_retry_delay_base 2 ∧
    get_retry_delay_base 1 ≤ MAX_DELAY ∧
    (get_retry_delay 1 0 = max (1 / 10) (get_retry_delay_base 1 + 0) ∧
      1 / 10 ≤ get_retry_delay 1 0) := by
  obtain ⟨h1, h2, h3, h4⟩ := C8_backoff_delay 1 2 0
  refine ⟨h1, h2 (by norm_num), h3, h4 ?_⟩
  norm_num [get_retry_delay_base, BASE_DELAY, MAX_DELAY, JITTER]

/-- C5: with the default configuration (threshold 5, reset timeout 60s,
half-open timeout 30s), five consecutive recorded failures open the breaker;
an admission check before the reset timeout has elapsed since the last
failure is rejected and leaves the breaker unchanged; an admission check once
the reset timeout has elapsed is admitted and moves the breaker to half-open;
one recorded success then closes it and resets the failure counter to 0. -/
theorem C5_breaker_lifecycle (name : String) (t1 t2 t3 t4 t5 now1 now2 t6 : ℚ)
    (cb5 : CircuitBreaker)
    (hcb : cb5 = failN (CircuitBreaker.init name 5 60 30) [t1, t2, t3, t4, t5]) :
    cb5.state = .opened ∧ cb5.failures = 5 ∧
    (now1 - t5 < 60 → cb5.allow_request now1 = (false, cb5)) ∧
    (60 ≤ now2 - t5 →
      (cb5.allow_request now2).1 = true ∧
      ((cb5.allow_request now2).2).state = .half_open ∧
      (((cb5.allow_request now2).2).record_success t6).state = .closed ∧
      (((cb5.allow_request now2).2).record_success t6).failures = 0) := by
  subst hcb
  refine ⟨?_, ?_, ?_, ?_⟩
  · norm_num [failN, CircuitBreaker.init, CircuitBreaker.record_failure]
  · norm_num [failN, CircuitBreaker.init, CircuitBreaker.record_failure]
  · intro h
    norm_num [failN, CircuitBreaker.init, CircuitBreaker.record_failure,
      CircuitBreaker.allow_request, not_le.mpr (by linarith : now1 - t5 < 60)]
  · intro h
    norm_num [failN, CircuitBreaker.init, CircuitBreaker.record_failure,
      CircuitBreaker.record_success, CircuitBreaker.allow_request,
      (by linarith : (60:ℚ) ≤ now2 - t5)]

/-- Witness for C5 with failures at times 1..5, a rejected check at time 30,
an admitted check at time 65 and a success at time 66. -/
theorem C5_breaker_lifecycle_witness :
    (failN (CircuitBreaker.init "api" 5 60 30) [1, 2, 3, 4, 5]).state = .opened ∧
    (failN (CircuitBreaker.init "api" 5 60 30) [1, 2, 3, 4, 5]).failures = 5 ∧
    (failN (CircuitBreaker.init "api" 5 60 30) [1, 2, 3, 4, 5]).allow_request 30 =
      (false, failN (CircuitBreaker.init "api" 5 60 30) [1, 2, 3, 4, 5]) ∧
    (((failN (CircuitBreaker.init "api" 5 60 30) [1, 2, 3, 4, 5]).allow_request 65).1 = true ∧
      (((failN (CircuitBreaker.init "api" 5 60 30) [1, 2, 3, 4, 5]).allow_request 65).2).state = .half_open ∧
      ((((failN (CircuitBreaker.init "api" 5 60 30) [1, 2, 3, 4, 5]).allow_request 65).2).record_success 66).state = .closed ∧
      ((((failN (CircuitBreaker.init "api" 5 60 30) [1, 2, 3, 4, 5]).allow_request 65).2).record_success 66).failures = 0) := by
  obtain ⟨h1, h2, h3, h4⟩ :=
    C5_breaker_lifecycle "api" 1 2 3 4 5 30 65 66 _ rfl
  exact ⟨h1, h2, h3 (by norm_num), h4 (by norm_num)⟩

/-- Every breaker state reachable from a fresh breaker is either closed or
carries at least failure_threshold recorded failures. -/
theorem breaker_closed_or_tripped (name : String) (th : ℕ) (rt hot : ℚ)
    (cb : CircuitBreaker)
    (h : CircuitBreaker.Reachable (CircuitBreaker.init name th rt hot) cb) :
    cb.state = .closed ∨ cb.failure_threshold ≤ cb.failures := by
  induction h with
  | refl => exact Or.inl rfl
  | success cb now hr ih => exact Or.inl rfl
  | failure cb now hr ih =>
    unfold CircuitBreaker.record_failure
    by_cases hc : cb.failure_threshold ≤ cb.failures + 1
    · right
      simp [hc]
    · rcases ih with h1 | h1
      · left
        simp [hc, h1]
      · exact absurd (Nat.le_succ_of_le h1) hc
  | allow cb now hr ih =>
    unfold CircuitBreaker.allow_request
    rcases hs : cb.state with _ | _ | _
    · simp [hs]
    · have hge : cb.failure_threshold ≤ cb.failures := by
        rcases ih with h1 | h1
        · rw [hs] at h1
          exact absurd h1 (by decide)
        · exact h1
      rcases hl : cb.last_failure_time with _ | t
      · simp [hs, hl]
        exact hge
      · by_cases hc : cb.reset_timeout ≤ now - t
        · simp [hs, hl, hc]
          exact hge
        · simp [hs, hl, hc]
          exact hge
    · have hge : cb.failure_threshold ≤ cb.failures := by
        rcases ih with h1 | h1
        · rw [hs] at h1
          exact absurd h1 (by decide)
        · exact h1
      rcases hl : cb.last_failure_time with _ | t
      · simp [hs, hl]
        exact hge
      · by_cases hc : cb.half_open_timeout ≤ now - t
        · simp [hs, hl, hc]
          exact hge
        · simp [hs, hl, hc]
          exact hge

/-- C9: in every breaker state reachable from a fresh breaker (closed, zero
failures) by any sequence of record_success, record_failure and allow_request
calls, an open or half-open state implies the failure counter is at least
failure_threshold; hence a single record_failure in the half-open state
always re-opens the breaker. -/
theorem C9_breaker_invariant (name : String) (th : ℕ) (rt hot : ℚ)
    (cb : CircuitBreaker)
    (h : CircuitBreaker.Reachable (CircuitBreaker.init name th rt hot) cb) :
    ((cb.state = .opened ∨ cb.state = .half_open) →
      cb.failure_threshold ≤ cb.failures) ∧
    (∀ now : ℚ, cb.state = .half_open →
      (cb.record_failure now).state = .opened) := by
  have inv := breaker_closed_or_tripped name th rt hot cb h
  have hmain : (cb.state = .opened ∨ cb.state = .half_open) →
      cb.failure_threshold ≤ cb.failures := by
    intro hs
    rcases inv with h1 | h1
    · rcases hs with hs | hs <;> rw [h1] at hs <;> cases hs
    · exact h1
  refine ⟨hmain, ?_⟩
  intro now hs
  have hth : cb.failure_threshold ≤ cb.failures := hmain (Or.inr hs)
  unfold CircuitBreaker.record_failure
  simp [Nat.le_succ_of_le hth]

/-- Witness for C9: a concrete breaker driven to half-open through five
failures and a reset-timeout admission check has at least threshold failures,
and one more recorded failure re-opens it. -/
theorem C9_breaker_invariant_witness :
    (((failN (CircuitBreaker.init "api" 5 60 30) [0, 0, 0, 0, 0]).allow_request 100).2.state = .opened ∨
      ((failN (CircuitBreaker.init "api" 5 60 30) [0, 0, 0, 0, 0]).allow_request 100).2.state = .half_open) ∧
    ((failN (CircuitBreaker.init "api" 5 60 30) [0, 0, 0, 0, 0]).allow_request 100).2.failure_threshold ≤
      ((failN (CircuitBreaker.init "api" 5 60 30) [0, 0, 0, 0, 0]).allow_request 100).2.failures ∧
    ((((failN (CircuitBreaker.init "api" 5 60 30) [0, 0, 0, 0, 0]).allow_request 100).2).record_failure 200).state = .opened := by
  have hreach : CircuitBreaker.Reachable (CircuitBreaker.init "api" 5 60 30)
      (((failN (CircuitBreaker.init "api" 5 60 30) [0, 0, 0, 0, 0]).allow_request 100).2) := by
    refine CircuitBreaker.Reachable.allow _ 100 ?_
    show CircuitBreaker.Reachable _
      (((((( CircuitBreaker.init "api" 5 60 30).record_failure 0).record_failure 0).record_failure 0).record_failure 0).record_failure 0)
    exact .failure _ 0 (.failure _ 0 (.failure _ 0 (.failure _ 0 (.failure _ 0 .refl))))
  obtain ⟨h1, h2⟩ := C9_breaker_invariant "api" 5 60 30 _ hreach
  have hhalf : (((failN (CircuitBreaker.init "api" 5 60 30) [0, 0, 0, 0, 0]).allow_request 100).2).state = .half_open := by
    norm_num [failN, CircuitBreaker.init, CircuitBreaker.record_failure,
      CircuitBreaker.allow_request]
  exact ⟨Or.inr hhalf, h1 (Or.inr hhalf), h2 200 hhalf⟩

/-- C2: an upstream call guarded by the decorator composition of the repo
(circuit breaker outside the retry controller) makes zero upstream attempts
when the breaker is open and rejecting: the call fails fast with the
circuit-open error, the retry loop is never entered, and the breaker state is
unchanged. -/
theorem C2_circuit_open_fails_fast {T : Type} (cb : CircuitBreaker)
    (now t : ℚ) (f : AttemptOracle T) (max_retries : ℕ)
    (hstate : cb.state = .opened)
    (hlft : cb.last_failure_time = some t)
    (helapsed : now - t < cb.reset_timeout) :
    guardedRetryCall cb now f max_retries =
      ⟨.error (.circuit_open cb.name), cb, 0⟩ := by
  unfold guardedRetryCall CircuitBreaker.allow_request
  simp [hstate, hlft, not_le.mpr helapsed]

/-- Witness for C2: a breaker opened by five failures at time 0, checked at
time 10 (before the 60-second reset timeout), makes zero attempts of a
persistently failing upstream oracle. -/
theorem C2_circuit_open_fails_fast_witness :
    guardedRetryCall (T := ℚ) (failN (CircuitBreaker.init "finnhub" 5 60 30) [0, 0, 0, 0, 0]) 10
        (fun _ => .error "boom") 3 =
      ⟨.error (.circuit_open (failN (CircuitBreaker.init "finnhub" 5 60 30) [0, 0, 0, 0, 0]).name),
        failN (CircuitBreaker.init "finnhub" 5 60 30) [0, 0, 0, 0, 0], 0⟩ := by
  apply C2_circuit_open_fails_fast (t := 0)
  · norm_num [failN, CircuitBreaker.init, CircuitBreaker.record_failure]
  · norm_num [failN, CircuitBreaker.init, CircuitBreaker.record_failure]
  · norm_num [failN, CircuitBreaker.init, CircuitBreaker.record_failure]

/-- C1 counterexample: at the concrete same-currency request
get_conversion_rate("usd", "USD") the code returns rate 1.0, source
"same_currency" and performs no store read or write, but the cached flag of
the returned dict is False, contradicting the claimed cached=true. -/
theorem C1_counterexample :
    (ConversionService.get_conversion_rate [] "usd" "USD" false false 0 24 none).result =
      .ok { from_c := "USD", to_c := "USD", rate := 1, cached := false,
            fetched_at := 0, source := "same_currency",
            cache_status := { is_valid := true, age_minutes := 0,
                              expires_at := none, ttl_hours := none,
                              is_inverse_pair := none,
                              using_expired_cache := none } } ∧
    (ConversionService.get_conversion_rate [] "usd" "USD" false false 0 24 none).store_reads = 0 ∧
    (ConversionService.get_conversion_rate [] "usd" "USD" false false 0 24 none).store_writes = 0 :=
  ⟨rfl, rfl, rfl⟩

/-- C1 (amended): for every pair of equal currency codes after uppercasing,
get_conversion_rate returns rate 1.0 with source "same_currency" and performs
no cache-store read or write, for all values of force_refresh and
allow_expired; the returned cached flag, however, is False, not True. -/
theorem C1_same_currency_short_circuit (db : List ConversionCache)
    (from_currency to_currency : String) (force_refresh allow_expired : Bool)
    (now conversion_cache_hours : ℚ) (api : Option ℚ)
    (h : str_upper from_currency = str_upper to_currency) :
    ConversionService.get_conversion_rate db from_currency to_currency
        force_refresh allow_expired now conversion_cache_hours api =
      { result := .ok
          { from_c := str_upper from_currency
            to_c := str_upper to_currency
            rate := 1
            cached := false
            fetched_at := now
            source := "same_currency"
            cache_status :=
              { is_valid := true, age_minutes := 0, expires_at := none,
                ttl_hours := none, is_inverse_pair := none,
                using_expired_cache := none } }
        db := db
        store_reads := 0
        store_writes := 0 } := by
  unfold ConversionService.get_conversion_rate
  simp [h]

/-- Witness for C1 (amended) at the concrete pair ("eur", "EUR") with both
flags set and an available upstream oracle. -/
theorem C1_same_currency_short_circuit_witness :
    ConversionService.get_conversion_rate [] "eur" "EUR" true true 5 24 (some 2) =
      { result := .ok
          { from_c := str_upper "eur"
            to_c := str_upper "EUR"
            rate := 1
            cached := false
            fetched_at := 5
            source := "same_currency"
            cache_status :=
              { is_valid := true, age_minutes := 0, expires_at := none,
                ttl_hours := none, is_inverse_pair := none,
                using_expired_cache := none } }
        db := []
        store_reads := 0
        store_writes := 0 } :=
  C1_same_currency_short_circuit [] "eur" "EUR" true true 5 24 (some 2) rfl

/-- C4: when the direct pair has no cached entry, the inverse pair has a
cached entry with rate r, r is positive and the entry is valid, a
non-force-refresh request returns rate 1/r (exact in rational arithmetic,
hence within floating-point tolerance), cached true and
is_inverse_pair true. -/
theorem C4_inverse_pair_derivation (db : List ConversionCache)
    (from_currency to_currency : String) (allow_expired : Bool)
    (now conversion_cache_hours : ℚ) (api : Option ℚ)
    (e : ConversionCache) (r : ℚ)
    (hdirect : ConversionService.get_cached_rate db now
      (str_upper from_currency) (str_upper to_currency) = none)
    (hinverse : ConversionService.get_cached_rate db now
      (str_upper to_currency) (str_upper from_currency) = some e)
    (hvalid : is_conversion_cache_valid now conversion_cache_hours (some e)
      false = true)
    (hrate : e.rate = r) (hr0 : 0 < r) :
    (ConversionService.get_conversion_rate db from_currency to_currency false
        allow_expired now conversion_cache_hours api).result.map
      (fun res => (res.rate, res.cached, res.cache_status.is_inverse_pair)) =
      .ok (1 / r, true, some true) := by
  have hr0' := hr0
  have hne : str_upper from_currency ≠ str_upper to_currency := by
    intro heq
    rw [heq] at hinverse
    unfold ConversionService.get_cached_rate get_cached_conversion_rate
      at hinverse
    simp at hinverse
  unfold ConversionService.get_conversion_rate
  simp [hne, hdirect, hinverse, hvalid, hrate, Except.map]

/-- Witness for C4: only (USD, EUR) = 17/20 is cached (1 hour old, TTL 24
hours); requesting (EUR, USD) yields 20/17 = 1 / (17/20), cached, flagged as
the inverse pair. -/
theorem C4_inverse_pair_derivation_witness :
    (ConversionService.get_conversion_rate
        [⟨"USD", "EUR", 17/20, 0, "exchangerate-api"⟩] "EUR" "USD" false false
        3600 24 none).result.map
      (fun res => (res.rate, res.cached, res.cache_status.is_inverse_pair)) =
      .ok (1 / (17/20), true, some true) := by
  apply C4_inverse_pair_derivation
    (e := ⟨"USD", "EUR", 17/20, 0, "exchangerate-api"⟩)
  · have e1 : str_upper "EUR" = "EUR" := rfl
    have e2 : str_upper "USD" = "USD" := rfl
    have b1 : (("USD" : String) == "EUR") = false := rfl
    norm_num [ConversionService.get_cached_rate, get_cached_conversion_rate,
      latestConversion, List.filter, e1, e2, b1]
  · have e1 : str_upper "EUR" = "EUR" := rfl
    have e2 : str_upper "USD" = "USD" := rfl
    have n1 : ("USD" : String) ≠ "EUR" := by decide
    have b1 : (("USD" : String) == "USD") = true := rfl
    have b2 : (("EUR" : String) == "EUR") = true := rfl
    norm_num [ConversionService.get_cached_rate, get_cached_conversion_rate,
      latestConversion, List.filter, n1, b1, b2, e1, e2]
  · norm_num [is_conversion_cache_valid, isCacheValidAge]
  · rfl
  · norm_num

/-- C10: convert_amount returns convertedAmount = amount * rate where rate is
the one returned by get_conversion_rate on the same arguments, and passes
through that result's pair, rate, cached, fetched_at, source and cache_status
fields unchanged. -/
theorem C10_convert_amount_passthrough (db : List ConversionCache)
    (from_currency to_currency : String) (amount : ℚ)
    (force_refresh allow_expired : Bool) (now conversion_cache_hours : ℚ)
    (api : Option ℚ) (rd : RateResult)
    (h : (ConversionService.get_conversion_rate db from_currency to_currency
      force_refresh allow_expired now conversion_cache_hours api).result = .ok rd) :
    (ConversionService.convert_amount db from_currency to_currency amount
        force_refresh allow_expired now conversion_cache_hours api).result =
      .ok { from_c := rd.from_c, to_c := rd.to_c, amount := amount,
            converted := amount * rd.rate, rate := rd.rate,
            cached := rd.cached, fetched_at := rd.fetched_at,
            source := rd.source, cache_status := rd.cache_status } := by
  unfold ConversionService.convert_amount
  simp [h]

/-- Witness for C10 at the concrete same-currency conversion of amount 7:
converted = 7 * 1. -/
theorem C10_convert_amount_passthrough_witness :
    (ConversionService.convert_amount [] "usd" "USD" 7 false false 0 24
        none).result =
      .ok { from_c := "USD", to_c := "USD", amount := 7, converted := 7 * 1,
            rate := 1, cached := false, fetched_at := 0,
            source := "same_currency",
            cache_status := { is_valid := true, age_minutes := 0,
                              expires_at := none, ttl_hours := none,
                              is_inverse_pair := none,
                              using_expired_cache := none } } :=
  C10_convert_amount_passthrough [] "usd" "USD" 7 false false 0 24 none
    { from_c := "USD", to_c := "USD", rate := 1, cached := false,
      fetched_at := 0, source := "same_currency",
      cache_status := { is_valid := true, age_minutes := 0, expires_at := none,
                        ttl_hours := none, is_inverse_pair := none,
                        using_expired_cache := none } } rfl

/-- C3 counterexample: with a still-valid cached entry (age 0), a
force-refresh request whose upstream fetch fails returns the cached entry
with cached=true but with cache_expired=false and with no cache_status block
(hence no using_expired_cache field at all), contradicting the claimed
unconditional usingExpiredCache=true tag. -/
theorem C3_counterexample :
    ((PriceService.get_stock_price [⟨"AAPL", "stock", 100, "USD", 0, "finnhub"⟩]
        "AAPL" true false 0 15 none).result.map
      (fun r => (r.cached, r.cache_expired, r.cache_status, r.api_error))) =
      .ok (true, some false, none, some true) := by
  have b1 : (("AAPL" : String) == "AAPL") = true := rfl
  have b2 : (("stock" : String) == "stock") = true := rfl
  norm_num [PriceService.get_stock_price, PriceService.stock_cache_hit,
    get_cache_by_symbol, latestPrice, List.filter, b1, b2,
    is_price_cache_valid, isCacheValidAge, get_cache_age_minutes, intTrunc,
    get_price_cache_expiration, Except.map]

/-- C3 (amended): on a price request that reaches the upstream fetch (the
early cache-serve path did not fire) and on which the fetch fails, the
service returns any existing cached observation tagged cached=true,
api_error=true and cache_expired = not isValid - true exactly when the entry
is expired, with no cache_status or using_expired_cache field on this path -
and raises the "no cached data available" error if and only if no cached
observation exists. -/
theorem C3_stale_fallback (db : List PriceCache) (identifier : String)
    (force_refresh allow_expired : Bool) (now price_cache_minutes : ℚ)
    (hmiss : PriceService.stock_cache_hit db identifier force_refresh
      allow_expired now price_cache_minutes = none) :
    (∀ c, get_cache_by_symbol db identifier "stock" = some c →
      (PriceService.get_stock_price db identifier force_refresh allow_expired
          now price_cache_minutes none).result =
        .ok { symbol := c.symbol, price := c.price, currency := c.currency,
              cached := true, fetched_at := c.fetched_at, source := c.source,
              cache_valid_until :=
                get_price_cache_expiration price_cache_minutes c,
              cache_status := none,
              cache_expired := some
                (!(is_price_cache_valid now price_cache_minutes (some c) false)),
              cache_age_minutes := some (get_cache_age_minutes now c.fetched_at),
              api_error := some true }) ∧
    (get_cache_by_symbol db identifier "stock" = none →
      (PriceService.get_stock_price db identifier force_refresh allow_expired
          now price_cache_minutes none).result =
        .error ("Could not fetch price for " ++ identifier ++
          " and no cached data available")) := by
  constructor
  · intro c hc
    unfold PriceService.get_stock_price
    simp [hmiss, hc]
  · intro hc
    unfold PriceService.get_stock_price
    simp [hmiss, hc]

/-- Witness for C3 (amended): an entry 30 minutes old with a 15-minute TTL is
not served by the early cache path; with the upstream fetch failing, the
fallback returns it with cached=true and cache_expired=true. -/
theorem C3_stale_fallback_witness :
    (PriceService.get_stock_price [⟨"AAPL", "stock", 100, "USD", 0, "finnhub"⟩]
        "AAPL" false false 1800 15 none).result =
      .ok { symbol := "AAPL", price := 100, currency := "USD", cached := true,
            fetched_at := 0, source := "finnhub", cache_valid_until := 900,
            cache_status := none, cache_expired := some true,
            cache_age_minutes := some 30, api_error := some true } := by
  have hmiss : PriceService.stock_cache_hit
      [⟨"AAPL", "stock", 100, "USD", 0, "finnhub"⟩] "AAPL" false false 1800 15 =
      none := by
    have b1 : (("AAPL" : String) == "AAPL") = true := rfl
    have b2 : (("stock" : String) == "stock") = true := rfl
    norm_num [PriceService.stock_cache_hit, get_cache_by_symbol, latestPrice,
      List.filter, b1, b2, is_price_cache_valid, isCacheValidAge]
  have h := (C3_stale_fallback [⟨"AAPL", "stock", 100, "USD", 0, "finnhub"⟩]
      "AAPL" false false 1800 15 hmiss).1
      ⟨"AAPL", "stock", 100, "USD", 0, "finnhub"⟩ rfl
  rw [h]
  norm_num [is_price_cache_valid, isCacheValidAge, get_cache_age_minutes,
    intTrunc, get_price_cache_expiration]

end Cointainr
